import Mathlib

/-!
Verification of the `wpml` waylines SDK (`converter_schema.go` and the
mission conversion pipeline described in the repository specification).

Go `float64` mission fields are embedded as `Rat`: every claim about them
is a range comparison or an equality, never floating-point arithmetic.
Go `string` fields are `String`, `*bool` is `Option Bool`,
`*float64` is `Option Rat`, and slices are `List`s.
-/

namespace WPML

/-- A parameter value in an `ActionRequest` parameter bag
(Go `map[string]interface{}`, holding JSON scalars). -/
inductive ParamValue where
  | int (i : Int)
  | num (q : Rat)
  | str (s : String)
  | bool (b : Bool)
  deriving DecidableEq, Repr

/-- Go `ActionRequest`: an action-type tag plus a parameter bag.
The bag is an association list keyed by parameter name. -/
structure ActionRequest where
  type : String
  params : List (String × ParamValue)
  deriving DecidableEq, Repr

/-- Go `WaylinesWaypoint` from `converter_schema.go`. -/
structure WaylinesWaypoint where
  latitude : Rat
  longitude : Rat
  height : Rat
  speed : Rat
  triggerType : String
  triggerParam : Rat
  waypointTurnMode : String
  useStraightLine : Option Bool
  turnDampingDist : Rat
  actions : List ActionRequest
  deriving DecidableEq, Repr

/-- Go `Waylines` from `converter_schema.go`, field for field. -/
structure Waylines where
  name : String
  description : String
  droneModel : String
  payloadModel : String
  payloadPositionIndex : Int
  templateType : String
  globalHeight : Rat
  globalSpeed : Rat
  photoSettings : List String
  useLowLightSmart : Bool
  finishAction : String
  heightType : String
  climbMode : String
  safeHeight : Rat
  globalRTHHeight : Rat
  aircraftYawMode : String
  gimbalPitchMode : String
  globalTransitionalSpeed : Rat
  takeOffRefPointLatitude : Rat
  takeOffRefPointLongitude : Rat
  takeOffRefPointHeight : Rat
  takeOffRefPointAGLHeight : Option Rat
  globalWaypointTurnMode : String
  globalUseStraightLine : Option Bool
  globalTurnDampingDist : Rat
  waypoints : List WaylinesWaypoint
  deriving DecidableEq, Repr

/-- The constant `HeightModeRelativeToStartPoint` used by `ApplyDefaults`. -/
def HeightModeRelativeToStartPoint : String := "relativeToStartPoint"

/-- Go `(w *Waylines) ApplyDefaults()` from `converter_schema.go`:
if `w.HeightType == ""` set it to `HeightModeRelativeToStartPoint`,
otherwise change nothing.  Embedded as a pure update returning the new
value of the receiver. -/
def Waylines.applyDefaults (w : Waylines) : Waylines :=
  if w.heightType = "" then { w with heightType := HeightModeRelativeToStartPoint }
  else w

/-- A single validation violation: the offending field's tag name, the
waypoint index when the field belongs to a waypoint, and the violated
constraint. -/
structure Violation where
  field : String
  waypointIndex : Option Nat
  constraint : String
  deriving DecidableEq, Repr

/-- The trigger-type vocabulary from the `trigger_type` tag in
`converter_schema.go`. -/
def triggerTypes : List String :=
  ["reachPoint", "passPoint", "manual", "betweenAdjacentPoints",
   "multipleTiming", "multipleDistance"]

/-- The turn-mode vocabulary from the `waypoint_turn_mode` tag in
`converter_schema.go`. -/
def turnModes : List String :=
  ["coordinateTurn", "toPointAndStopWithDiscontinuityCurvature",
   "toPointAndStopWithContinuityCurvature",
   "toPointAndPassWithContinuityCurvature"]

def nameViolation : Violation := ⟨"name", none, "length 1-100"⟩
def droneModelViolation : Violation := ⟨"drone_model", none, "required"⟩
def payloadModelViolation : Violation := ⟨"payload_model", none, "required"⟩
def templateTypeViolation : Violation := ⟨"template_type", none, "required"⟩
def globalHeightViolation : Violation := ⟨"global_height", none, "range 5-1500"⟩
def globalSpeedViolation : Violation := ⟨"global_speed", none, "range 1-15"⟩
def waypointsViolation : Violation := ⟨"waypoints", none, "at least one waypoint"⟩
def latitudeViolation (i : Nat) : Violation := ⟨"latitude", some i, "range -90..90"⟩
def longitudeViolation (i : Nat) : Violation := ⟨"longitude", some i, "range -180..180"⟩
def heightViolation (i : Nat) : Violation := ⟨"height", some i, "required, range 5-500"⟩
def speedViolation (i : Nat) : Violation := ⟨"speed", some i, "range 1-15"⟩
def triggerTypeViolation (i : Nat) : Violation := ⟨"trigger_type", some i, "enum"⟩
def triggerParamViolation (i : Nat) : Violation := ⟨"trigger_param", some i, "min 0"⟩
def turnModeViolation (i : Nat) : Violation := ⟨"waypoint_turn_mode", some i, "enum"⟩

/-- Modelled from the spec: mission-level name check.  The repository's
validator implementation (`NewWPMLValidator().ValidateStruct`) is not under
`src/`; the rule comes from the spec ("name length 1–100") and the
`validate:"required,min=1,max=100"` tag on `Waylines.Name`. -/
def checkName (w : Waylines) : List Violation :=
  if 1 ≤ w.name.length ∧ w.name.length ≤ 100 then [] else [nameViolation]

/-- Modelled from the spec: required drone-model presence check
(required-field presence, §4.1; the supported-model enumeration is not
under `src/`, so only presence is modelled). -/
def checkDroneModel (w : Waylines) : List Violation :=
  if w.droneModel = "" then [droneModelViolation] else []

/-- Modelled from the spec: required payload-model presence check. -/
def checkPayloadModel (w : Waylines) : List Violation :=
  if w.payloadModel = "" then [payloadModelViolation] else []

/-- Modelled from the spec: required template-type presence check. -/
def checkTemplateType (w : Waylines) : List Violation :=
  if w.templateType = "" then [templateTypeViolation] else []

/-- Modelled from the spec: global height in 5–1500 m when non-zero
("numeric fields within documented ranges when non-zero"). -/
def checkGlobalHeight (w : Waylines) : List Violation :=
  if w.globalHeight ≠ 0 ∧ (w.globalHeight < 5 ∨ 1500 < w.globalHeight) then
    [globalHeightViolation]
  else []

/-- Modelled from the spec: global speed in 1–15 m/s when non-zero. -/
def checkGlobalSpeed (w : Waylines) : List Violation :=
  if w.globalSpeed ≠ 0 ∧ (w.globalSpeed < 1 ∨ 15 < w.globalSpeed) then
    [globalSpeedViolation]
  else []

/-- Modelled from the spec: "at least one waypoint". -/
def checkWaypointsPresent (w : Waylines) : List Violation :=
  if w.waypoints = [] then [waypointsViolation] else []

/-- Modelled from the spec: all checks on one waypoint, each violation
carrying the waypoint's index.  Latitude −90..90 and longitude −180..180
(coordinate range checks per waypoint), height required in 5..500,
optional speed/trigger-type/trigger-param/turn-mode checked only when the
field is set (non-zero resp. non-empty). -/
def checkWaypoint (i : Nat) (wp : WaylinesWaypoint) : List Violation :=
  (if wp.latitude < -90 ∨ 90 < wp.latitude then [latitudeViolation i] else []) ++
  (if wp.longitude < -180 ∨ 180 < wp.longitude then [longitudeViolation i] else []) ++
  (if wp.height < 5 ∨ 500 < wp.height then [heightViolation i] else []) ++
  (if wp.speed ≠ 0 ∧ (wp.speed < 1 ∨ 15 < wp.speed) then [speedViolation i] else []) ++
  (if wp.triggerType ≠ "" ∧ wp.triggerType ∉ triggerTypes then [triggerTypeViolation i] else []) ++
  (if wp.triggerParam < 0 then [triggerParamViolation i] else []) ++
  (if wp.waypointTurnMode ≠ "" ∧ wp.waypointTurnMode ∉ turnModes then [turnModeViolation i] else [])

/-- Modelled from the spec: check every waypoint in order, indices
assigned sequentially from `i`. -/
def checkWaypoints (i : Nat) : List WaylinesWaypoint → List Violation
  | [] => []
  | wp :: rest => checkWaypoint i wp ++ checkWaypoints (i + 1) rest

/-- Modelled from the spec: `NewWPMLValidator().ValidateStruct(w)` (the
body of `Waylines.Validate` in `converter_schema.go`, whose implementation
is not under `src/`).  The checker walks the struct sequentially,
accumulating all violations without stopping at the first failure; the
returned pair is (the receiver's value after the call, the ordered
violation list), so that absence of mutation is an explicit statement
about the model rather than an artifact of the embedding. -/
def Waylines.validateStruct (w : Waylines) : Waylines × List Violation :=
  let s1 : Waylines × List Violation := (w, checkName w)
  let s2 : Waylines × List Violation := (s1.1, s1.2 ++ checkDroneModel s1.1)
  let s3 : Waylines × List Violation := (s2.1, s2.2 ++ checkPayloadModel s2.1)
  let s4 : Waylines × List Violation := (s3.1, s3.2 ++ checkTemplateType s3.1)
  let s5 : Waylines × List Violation := (s4.1, s4.2 ++ checkGlobalHeight s4.1)
  let s6 : Waylines × List Violation := (s5.1, s5.2 ++ checkGlobalSpeed s5.1)
  let s7 : Waylines × List Violation := (s6.1, s6.2 ++ checkWaypointsPresent s6.1)
  (s7.1, s7.2 ++ checkWaypoints 0 s7.1.waypoints)

/-- Go `(w *Waylines) Validate()`: the violation list produced by the
modelled `ValidateStruct`. -/
def Waylines.validate (w : Waylines) : List Violation := (w.validateStruct).2

/-- A concrete `takePhoto` action request with an explicit payload index. -/
def exampleAction : ActionRequest :=
  ⟨"takePhoto", [("payloadPositionIndex", ParamValue.int 0)]⟩

/-- A valid waypoint with one action and no optional overrides. -/
def exampleWaypoint0 : WaylinesWaypoint :=
  { latitude := 39, longitude := 116, height := 50, speed := 5,
    triggerType := "", triggerParam := 0, waypointTurnMode := "",
    useStraightLine := none, turnDampingDist := 0, actions := [exampleAction] }

/-- A valid waypoint with every optional override left unset. -/
def exampleWaypoint1 : WaylinesWaypoint :=
  { latitude := 40, longitude := 116, height := 60, speed := 0,
    triggerType := "", triggerParam := 0, waypointTurnMode := "",
    useStraightLine := none, turnDampingDist := 0, actions := [] }

/-- A valid two-waypoint mission (global height and speed left unset). -/
def exampleMission : Waylines :=
  { name := "Sample Mission", description := "", droneModel := "M3TD",
    payloadModel := "M3TD", payloadPositionIndex := 0,
    templateType := "waypoint", globalHeight := 0, globalSpeed := 0,
    photoSettings := [], useLowLightSmart := false, finishAction := "",
    heightType := "", climbMode := "", safeHeight := 0, globalRTHHeight := 0,
    aircraftYawMode := "", gimbalPitchMode := "", globalTransitionalSpeed := 0,
    takeOffRefPointLatitude := 0, takeOffRefPointLongitude := 0,
    takeOffRefPointHeight := 0, takeOffRefPointAGLHeight := none,
    globalWaypointTurnMode := "", globalUseStraightLine := none,
    globalTurnDampingDist := 0, waypoints := [exampleWaypoint0, exampleWaypoint1] }

/-- A waypoint whose latitude is out of range. -/
def badWaypoint : WaylinesWaypoint :=
  { latitude := 200, longitude := 116, height := 50, speed := 0,
    triggerType := "", triggerParam := 0, waypointTurnMode := "",
    useStraightLine := none, turnDampingDist := 0, actions := [] }

/-- A mission violating several constraints at once: empty name, global
height 3000 (above 1500), and a waypoint with latitude 200. -/
def badMission : Waylines :=
  { exampleMission with
    name := "", globalHeight := 3000, globalSpeed := 5,
    waypoints := [badWaypoint] }

/-- A mission with no waypoints and an empty name. -/
def emptyMission : Waylines :=
  { exampleMission with name := "", waypoints := [] }

/-- Modelled from the spec: a concrete device command produced by the
Action Encoder (which is not under `src/`): a mission-scoped identifier,
the action type, and its resolved parameters with defaults applied. -/
structure WPMLAction where
  id : Nat
  actionType : String
  params : List (String × ParamValue)
  deriving DecidableEq, Repr

/-- Modelled from the spec: a trigger (type plus optional parameter). -/
structure ActionTrigger where
  triggerType : String
  triggerParam : Rat
  deriving DecidableEq, Repr

/-- Modelled from the spec: an action group binds a trigger to an ordered
sequence of concrete actions. -/
structure ActionGroup where
  trigger : ActionTrigger
  actions : List WPMLAction
  deriving DecidableEq, Repr

/-- Modelled from the spec: a placemark of the mission tree, carrying the
zero-based index, coordinate, height, resolved speed, and action groups. -/
structure Placemark where
  index : Nat
  latitude : Rat
  longitude : Rat
  height : Rat
  speed : Rat
  actionGroups : List ActionGroup
  deriving DecidableEq, Repr

/-- Modelled from the spec: the mission tree built by the Mission Builder
(ordered placemarks, one per waypoint). -/
structure MissionTree where
  placemarks : List Placemark
  deriving DecidableEq, Repr

def payloadIndexKey : String := "payloadPositionIndex"
def gimbalRotateModeKey : String := "gimbalRotateMode"
def aircraftYawModeKey : String := "aircraftYawRotateMode"
def aircraftYawAngleKey : String := "aircraftYawRotateAngle"
def hoverTimeKey : String := "hoverTime"

/-- Modelled from the spec: gimbal rotate mode vocabulary
(absolute/relative angle modes). -/
def gimbalRotateModes : List String := ["absoluteAngle", "relativeAngle"]

/-- Modelled from the spec: aircraft yaw rotate mode vocabulary. -/
def aircraftYawRotateModes : List String := ["absoluteAngle", "relativeAngle"]

/-- Numeric view of a parameter value (JSON numbers arrive as ints or
fractions). -/
def paramNum : ParamValue → Option Rat
  | ParamValue.int i => some (i : Rat)
  | ParamValue.num q => some q
  | ParamValue.str _ => none
  | ParamValue.bool _ => none

/-- Modelled from the spec: the Action Encoder for one request (the
encoder is not under `src/`).  Unknown types fail; required parameters
missing fail with a missing-parameter error; present parameters are
type/range checked; declared defaults are applied for absent optional
parameters (`takePhoto`: `payloadPositionIndex` defaults to 0); the
resulting concrete action carries the supplied mission-scoped id. -/
def encodeAction (id : Nat) (r : ActionRequest) : Except String WPMLAction :=
  if r.type = "takePhoto" then
    match List.lookup payloadIndexKey r.params with
    | none => Except.ok ⟨id, "takePhoto", [(payloadIndexKey, ParamValue.int 0)]⟩
    | some (ParamValue.int i) =>
        if 0 ≤ i then
          Except.ok ⟨id, "takePhoto", [(payloadIndexKey, ParamValue.int i)]⟩
        else Except.error ("invalid parameter payloadPositionIndex")
    | some _ => Except.error ("invalid parameter payloadPositionIndex")
  else if r.type = "gimbalRotate" then
    match List.lookup payloadIndexKey r.params,
        List.lookup gimbalRotateModeKey r.params with
    | none, _ => Except.error ("missing parameter payloadPositionIndex")
    | _, none => Except.error ("missing parameter gimbalRotateMode")
    | some (ParamValue.int i), some (ParamValue.str m) =>
        if 0 ≤ i ∧ m ∈ gimbalRotateModes then
          Except.ok ⟨id, "gimbalRotate", r.params⟩
        else Except.error ("invalid parameter for gimbalRotate")
    | some _, some _ => Except.error ("invalid parameter for gimbalRotate")
  else if r.type = "aircraftYaw" then
    match List.lookup aircraftYawModeKey r.params,
        List.lookup aircraftYawAngleKey r.params with
    | none, _ => Except.error ("missing parameter aircraftYawRotateMode")
    | _, none => Except.error ("missing parameter aircraftYawRotateAngle")
    | some (ParamValue.str m), some v =>
        if m ∈ aircraftYawRotateModes ∧ (paramNum v).isSome then
          Except.ok ⟨id, "aircraftYaw", r.params⟩
        else Except.error ("invalid parameter for aircraftYaw")
    | some _, some _ => Except.error ("invalid parameter for aircraftYaw")
  else if r.type = "hover" then
    match List.lookup hoverTimeKey r.params with
    | none => Except.error ("missing parameter hoverTime")
    | some v =>
        match paramNum v with
        | some q =>
            if 0 < q then Except.ok ⟨id, "hover", [(hoverTimeKey, ParamValue.num q)]⟩
            else Except.error ("invalid parameter hoverTime")
        | none => Except.error ("invalid parameter hoverTime")
  else Except.error ("unsupported action type " ++ r.type)

/-- Modelled from the spec: encode a waypoint's requests in order,
assigning consecutive mission-scoped identifiers from `startId`. -/
def encodeActions (startId : Nat) : List ActionRequest → Except String (List WPMLAction)
  | [] => Except.ok []
  | r :: rs => do
      let a ← encodeAction startId r
      let as ← encodeActions (startId + 1) rs
      Except.ok (a :: as)

/-- Modelled from the spec: the single synthesized trigger for a
waypoint's actions — `reachPoint` by default, the waypoint's declared
trigger type and parameter otherwise. -/
def waypointTrigger (wp : WaylinesWaypoint) : ActionTrigger :=
  if wp.triggerType = "" then ⟨"reachPoint", 0⟩
  else ⟨wp.triggerType, wp.triggerParam⟩

/-- Modelled from the spec: the action groups for one waypoint, together
with the next unused mission-scoped identifier.  Zero requests yield zero
groups; otherwise all of the waypoint's actions share its one trigger. -/
def encodeWaypointActions (startId : Nat) (wp : WaylinesWaypoint) :
    Except String (List ActionGroup × Nat) :=
  if wp.actions = [] then Except.ok ([], startId)
  else do
    let as ← encodeActions startId wp.actions
    Except.ok ([⟨waypointTrigger wp, as⟩], startId + wp.actions.length)

/-- Modelled from the spec: override precedence for speed — the waypoint
value if present (non-zero), else the mission's global value. -/
def effectiveSpeed (w : Waylines) (wp : WaylinesWaypoint) : Rat :=
  if wp.speed ≠ 0 then wp.speed else w.globalSpeed

/-- Modelled from the spec: the Mission Builder's walk — placemark
indices assigned sequentially, identifiers threaded through the encoder,
input order preserved; any encoder error aborts the build. -/
def buildPlacemarks (w : Waylines) : Nat → Nat → List WaylinesWaypoint →
    Except String (List Placemark)
  | _, _, [] => Except.ok []
  | idx, nextId, wp :: rest => do
      let gn ← encodeWaypointActions nextId wp
      let ps ← buildPlacemarks w (idx + 1) gn.2 rest
      Except.ok (⟨idx, wp.latitude, wp.longitude, wp.height,
        effectiveSpeed w wp, gn.1⟩ :: ps)

/-- Modelled from the spec: `Build` — a validated `Waylines` is turned
into the mission tree; a validation failure aborts before any tree is
built. -/
def build (w : Waylines) : Except String MissionTree :=
  if w.validate = [] then
    (buildPlacemarks w 0 1 w.waypoints).map (fun ps => ⟨ps⟩)
  else Except.error ("validation failed")

/-- Modelled from the spec: the rendered documents of the Document
Serializer — the execution document carries the full mission tree, the
visualization document only the indexed coordinates. -/
inductive KmzDocument where
  | exec (tree : MissionTree)
  | vis (marks : List (Nat × Rat × Rat))
  deriving DecidableEq, Repr

/-- Modelled from the spec: one entry of the archive, at a fixed internal
path. -/
structure ArchiveEntry where
  path : String
  doc : KmzDocument
  deriving DecidableEq, Repr

/-- The fixed internal path of the execution document. -/
def waylinesDocPath : String := "wpmz/waylines.wpml"

/-- The fixed internal path of the visualization document. -/
def templateDocPath : String := "wpmz/template.kml"

/-- The visualization view of a mission tree: one indexed coordinate per
placemark, in the same order. -/
def visOf (t : MissionTree) : List (Nat × Rat × Rat) :=
  t.placemarks.map (fun p => (p.index, p.latitude, p.longitude))

/-- Modelled from the spec: `Package` — the Container Packager writes the
two rendered documents at their fixed, non-configurable internal paths. -/
def packageMission (t : MissionTree) : List ArchiveEntry :=
  [⟨waylinesDocPath, KmzDocument.exec t⟩,
   ⟨templateDocPath, KmzDocument.vis (visOf t)⟩]

/-- Locate an archive entry by its internal path. -/
def findEntry : List ArchiveEntry → String → Option KmzDocument
  | [], _ => none
  | e :: rest, p => if e.path = p then some e.doc else findEntry rest p

/-- Modelled from the spec: `Parse` — the Container Parser locates the
two required entries by their fixed paths (missing-entry error
otherwise), rejects a document of the wrong shape as malformed,
cross-checks waypoint data between the two documents (inconsistent
otherwise), and reconstructs the mission tree. -/
def parseArchive (archive : List ArchiveEntry) : Except String MissionTree :=
  match findEntry archive waylinesDocPath with
  | none => Except.error ("missing entry wpmz/waylines.wpml")
  | some (KmzDocument.vis _) => Except.error ("malformed document waylines.wpml")
  | some (KmzDocument.exec tree) =>
      match findEntry archive templateDocPath with
      | none => Except.error ("missing entry wpmz/template.kml")
      | some (KmzDocument.exec _) => Except.error ("malformed document template.kml")
      | some (KmzDocument.vis marks) =>
          if marks = visOf tree then Except.ok tree
          else Except.error ("inconsistent documents")

/-- The mission tree built from `exampleMission`. -/
def exampleTree : MissionTree :=
  ⟨[⟨0, 39, 116, 50, 5,
      [⟨⟨"reachPoint", 0⟩,
        [⟨1, "takePhoto", [(payloadIndexKey, ParamValue.int 0)]⟩]⟩]⟩,
    ⟨1, 40, 116, 60, 0, []⟩]⟩

/-- A `takePhoto` request with an empty parameter bag. -/
def photoNoIndexRequest : ActionRequest := ⟨"takePhoto", []⟩

end WPML

namespace WPML

@[simp] theorem latitudeViolation_field (i : Nat) :
    (latitudeViolation i).field = "latitude" := rfl
@[simp] theorem longitudeViolation_field (i : Nat) :
    (longitudeViolation i).field = "longitude" := rfl
@[simp] theorem heightViolation_field (i : Nat) :
    (heightViolation i).field = "height" := rfl
@[simp] theorem speedViolation_field (i : Nat) :
    (speedViolation i).field = "speed" := rfl
@[simp] theorem triggerTypeViolation_field (i : Nat) :
    (triggerTypeViolation i).field = "trigger_type" := rfl
@[simp] theorem triggerParamViolation_field (i : Nat) :
    (triggerParamViolation i).field = "trigger_param" := rfl
@[simp] theorem turnModeViolation_field (i : Nat) :
    (turnModeViolation i).field = "waypoint_turn_mode" := rfl

/-- Membership in a guarded singleton-or-empty list. -/
theorem mem_ite_nil {α : Type} (p : Prop) [Decidable p] (a : α) (l : List α) :
    a ∈ (if p then l else []) ↔ p ∧ a ∈ l := by
  by_cases h : p <;> simp [h]

/-- Complete characterization of the violations one waypoint's checks emit. -/
theorem mem_checkWaypoint_iff (i : Nat) (wp : WaylinesWaypoint) (v : Violation) :
    v ∈ checkWaypoint i wp ↔
      ((wp.latitude < -90 ∨ 90 < wp.latitude) ∧ v = latitudeViolation i) ∨
      ((wp.longitude < -180 ∨ 180 < wp.longitude) ∧ v = longitudeViolation i) ∨
      ((wp.height < 5 ∨ 500 < wp.height) ∧ v = heightViolation i) ∨
      ((wp.speed ≠ 0 ∧ (wp.speed < 1 ∨ 15 < wp.speed)) ∧ v = speedViolation i) ∨
      ((wp.triggerType ≠ "" ∧ wp.triggerType ∉ triggerTypes) ∧ v = triggerTypeViolation i) ∨
      (wp.triggerParam < 0 ∧ v = triggerParamViolation i) ∨
      ((wp.waypointTurnMode ≠ "" ∧ wp.waypointTurnMode ∉ turnModes) ∧ v = turnModeViolation i) := by
  simp only [checkWaypoint, List.mem_append, mem_ite_nil, List.mem_singleton, or_assoc]

/-- Every violation emitted by a waypoint's checks carries that
waypoint's index. -/
theorem checkWaypoint_index (i : Nat) (wp : WaylinesWaypoint) (v : Violation)
    (hv : v ∈ checkWaypoint i wp) : v.waypointIndex = some i := by
  rw [mem_checkWaypoint_iff] at hv
  rcases hv with ⟨_, h⟩ | ⟨_, h⟩ | ⟨_, h⟩ | ⟨_, h⟩ | ⟨_, h⟩ | ⟨_, h⟩ | ⟨_, h⟩ <;>
    subst h <;> rfl

/-- Membership in the sequential waypoint sweep: a violation appears iff
some waypoint at offset `j` emits it at index `n + j`. -/
theorem mem_checkWaypoints (n : Nat) (l : List WaylinesWaypoint) (v : Violation) :
    v ∈ checkWaypoints n l ↔
      ∃ j wp, l[j]? = some wp ∧ v ∈ checkWaypoint (n + j) wp := by
  induction l generalizing n with
  | nil => simp [checkWaypoints]
  | cons wp rest ih =>
    simp only [checkWaypoints, List.mem_append, ih (n + 1)]
    constructor
    · rintro (hv | ⟨j, wq, hj, hv⟩)
      · exact ⟨0, wp, by simp, by simpa using hv⟩
      · refine ⟨j + 1, wq, by simpa using hj, ?_⟩
        have e : n + 1 + j = n + (j + 1) := by omega
        rw [e] at hv; exact hv
    · rintro ⟨j, wq, hj, hv⟩
      cases j with
      | zero =>
        left
        simp only [List.getElem?_cons_zero, Option.some.injEq] at hj
        subst hj
        simpa using hv
      | succ j =>
        right
        refine ⟨j, wq, by simpa using hj, ?_⟩
        have e : n + 1 + j = n + (j + 1) := by omega
        rw [e]; exact hv

/-- The full violation list, as the concatenation of all checks. -/
theorem validate_closed_form (w : Waylines) :
    w.validate =
      checkName w ++ (checkDroneModel w ++ (checkPayloadModel w ++
      (checkTemplateType w ++ (checkGlobalHeight w ++ (checkGlobalSpeed w ++
      (checkWaypointsPresent w ++ checkWaypoints 0 w.waypoints)))))) := by
  simp [Waylines.validate, Waylines.validateStruct, List.append_assoc]

/-- Complete characterization of membership in the validator's output. -/
theorem mem_validate_iff (w : Waylines) (v : Violation) :
    v ∈ w.validate ↔
      (¬ (1 ≤ w.name.length ∧ w.name.length ≤ 100) ∧ v = nameViolation) ∨
      (w.droneModel = "" ∧ v = droneModelViolation) ∨
      (w.payloadModel = "" ∧ v = payloadModelViolation) ∨
      (w.templateType = "" ∧ v = templateTypeViolation) ∨
      ((w.globalHeight ≠ 0 ∧ (w.globalHeight < 5 ∨ 1500 < w.globalHeight)) ∧
        v = globalHeightViolation) ∨
      ((w.globalSpeed ≠ 0 ∧ (w.globalSpeed < 1 ∨ 15 < w.globalSpeed)) ∧
        v = globalSpeedViolation) ∨
      (w.waypoints = [] ∧ v = waypointsViolation) ∨
      (∃ j wp, w.waypoints[j]? = some wp ∧ v ∈ checkWaypoint j wp) := by
  rw [validate_closed_form]
  simp only [List.mem_append, checkName, checkDroneModel, checkPayloadModel,
    checkTemplateType, checkGlobalHeight, checkGlobalSpeed, checkWaypointsPresent,
    mem_checkWaypoints, List.mem_singleton]
  constructor
  · rintro (h | h | h | h | h | h | h | h)
    · split at h <;> simp_all
    · rw [mem_ite_nil] at h; simp_all
    · rw [mem_ite_nil] at h; simp_all
    · rw [mem_ite_nil] at h; simp_all
    · rw [mem_ite_nil] at h; simp_all
    · rw [mem_ite_nil] at h; simp_all
    · rw [mem_ite_nil] at h; simp_all
    · rcases h with ⟨j, wp, hj, hv⟩
      exact Or.inr (Or.inr (Or.inr (Or.inr (Or.inr (Or.inr (Or.inr
        ⟨j, wp, hj, by simpa using hv⟩))))))
  · rintro (⟨h, hv⟩ | ⟨h, hv⟩ | ⟨h, hv⟩ | ⟨h, hv⟩ | ⟨h, hv⟩ | ⟨h, hv⟩ | ⟨h, hv⟩ |
      ⟨j, wp, hj, hv⟩)
    · subst hv; left; split <;> simp_all
    · subst hv; refine Or.inr (Or.inl ?_); rw [mem_ite_nil]; simp_all
    · subst hv; refine Or.inr (Or.inr (Or.inl ?_)); rw [mem_ite_nil]; simp_all
    · subst hv; refine Or.inr (Or.inr (Or.inr (Or.inl ?_))); rw [mem_ite_nil]; simp_all
    · subst hv
      refine Or.inr (Or.inr (Or.inr (Or.inr (Or.inl ?_)))); rw [mem_ite_nil]; simp_all
    · subst hv
      refine Or.inr (Or.inr (Or.inr (Or.inr (Or.inr (Or.inl ?_))))); rw [mem_ite_nil]
      simp_all
    · subst hv
      refine Or.inr (Or.inr (Or.inr (Or.inr (Or.inr (Or.inr (Or.inl ?_))))))
      rw [mem_ite_nil]; simp_all
    · exact Or.inr (Or.inr (Or.inr (Or.inr (Or.inr (Or.inr (Or.inr
        ⟨j, wp, hj, by simpa using hv⟩))))))

/-- Shapes of the violations a waypoint's checks can emit, with the
conditions needed later to rule fields out. -/
theorem mem_checkWaypoint_cases (i : Nat) (wp : WaylinesWaypoint) (v : Violation)
    (hv : v ∈ checkWaypoint i wp) :
    v = latitudeViolation i ∨ v = longitudeViolation i ∨ v = heightViolation i ∨
    (v = speedViolation i ∧ wp.speed ≠ 0) ∨
    (v = triggerTypeViolation i ∧ wp.triggerType ≠ "") ∨
    (v = triggerParamViolation i ∧ wp.triggerParam < 0) ∨
    (v = turnModeViolation i ∧ wp.waypointTurnMode ≠ "") := by
  rw [mem_checkWaypoint_iff] at hv
  rcases hv with ⟨h, hv⟩ | ⟨h, hv⟩ | ⟨h, hv⟩ | ⟨h, hv⟩ | ⟨h, hv⟩ | ⟨h, hv⟩ | ⟨h, hv⟩ <;>
    subst hv <;> tauto

/-- A violation carrying waypoint index `i` comes from the checks of the
waypoint stored at position `i`. -/
theorem mem_validate_at_index (w : Waylines) (v : Violation) (i : Nat)
    (wp : WaylinesWaypoint) (h : w.waypoints[i]? = some wp)
    (hv : v ∈ w.validate) (hidx : v.waypointIndex = some i) :
    v ∈ checkWaypoint i wp := by
  rw [mem_validate_iff] at hv
  rcases hv with ⟨_, hv⟩ | ⟨_, hv⟩ | ⟨_, hv⟩ | ⟨_, hv⟩ | ⟨_, hv⟩ | ⟨_, hv⟩ | ⟨_, hv⟩ |
    ⟨j, wq, hj, hv⟩
  · subst hv; simp [nameViolation] at hidx
  · subst hv; simp [droneModelViolation] at hidx
  · subst hv; simp [payloadModelViolation] at hidx
  · subst hv; simp [templateTypeViolation] at hidx
  · subst hv; simp [globalHeightViolation] at hidx
  · subst hv; simp [globalSpeedViolation] at hidx
  · subst hv; simp [waypointsViolation] at hidx
  · have hji : v.waypointIndex = some j := checkWaypoint_index j wq v hv
    rw [hidx] at hji
    obtain rfl : i = j := by simpa using hji
    rw [h] at hj
    obtain rfl : wp = wq := by simpa using hj
    exact hv

/-- Violations of one waypoint's checks are violations of the whole
mission's validation. -/
theorem checkWaypoint_sub (w : Waylines) (i : Nat) (wp : WaylinesWaypoint)
    (hw : w.waypoints[i]? = some wp) (v : Violation) (hv : v ∈ checkWaypoint i wp) :
    v ∈ w.validate :=
  (mem_validate_iff w v).mpr (Or.inr (Or.inr (Or.inr (Or.inr (Or.inr (Or.inr
    (Or.inr ⟨i, wp, hw, hv⟩)))))))

/-- C2: `Validate` names every violated field (with waypoint index where
applicable), not only the first violation encountered: each violated
constraint contributes its violation to the returned list regardless of
what else is violated. -/
theorem validate_reports_every_violation (w : Waylines) :
    (¬ (1 ≤ w.name.length ∧ w.name.length ≤ 100) → nameViolation ∈ w.validate)
    ∧ (w.droneModel = "" → droneModelViolation ∈ w.validate)
    ∧ (w.payloadModel = "" → payloadModelViolation ∈ w.validate)
    ∧ (w.templateType = "" → templateTypeViolation ∈ w.validate)
    ∧ (w.globalHeight ≠ 0 ∧ (w.globalHeight < 5 ∨ 1500 < w.globalHeight) →
        globalHeightViolation ∈ w.validate)
    ∧ (w.globalSpeed ≠ 0 ∧ (w.globalSpeed < 1 ∨ 15 < w.globalSpeed) →
        globalSpeedViolation ∈ w.validate)
    ∧ (w.waypoints = [] → waypointsViolation ∈ w.validate)
    ∧ (∀ i wp, w.waypoints[i]? = some wp →
        ((wp.latitude < -90 ∨ 90 < wp.latitude) → latitudeViolation i ∈ w.validate)
        ∧ ((wp.longitude < -180 ∨ 180 < wp.longitude) → longitudeViolation i ∈ w.validate)
        ∧ ((wp.height < 5 ∨ 500 < wp.height) → heightViolation i ∈ w.validate)
        ∧ (wp.speed ≠ 0 ∧ (wp.speed < 1 ∨ 15 < wp.speed) → speedViolation i ∈ w.validate)
        ∧ (wp.triggerType ≠ "" ∧ wp.triggerType ∉ triggerTypes →
            triggerTypeViolation i ∈ w.validate)
        ∧ (wp.triggerParam < 0 → triggerParamViolation i ∈ w.validate)
        ∧ (wp.waypointTurnMode ≠ "" ∧ wp.waypointTurnMode ∉ turnModes →
            turnModeViolation i ∈ w.validate)) := by
  refine ⟨fun h => (mem_validate_iff w _).mpr (Or.inl ⟨h, rfl⟩),
    fun h => (mem_validate_iff w _).mpr (Or.inr (Or.inl ⟨h, rfl⟩)),
    fun h => (mem_validate_iff w _).mpr (Or.inr (Or.inr (Or.inl ⟨h, rfl⟩))),
    fun h => (mem_validate_iff w _).mpr (Or.inr (Or.inr (Or.inr (Or.inl ⟨h, rfl⟩)))),
    fun h => (mem_validate_iff w _).mpr
      (Or.inr (Or.inr (Or.inr (Or.inr (Or.inl ⟨h, rfl⟩))))),
    fun h => (mem_validate_iff w _).mpr
      (Or.inr (Or.inr (Or.inr (Or.inr (Or.inr (Or.inl ⟨h, rfl⟩)))))),
    fun h => (mem_validate_iff w _).mpr
      (Or.inr (Or.inr (Or.inr (Or.inr (Or.inr (Or.inr (Or.inl ⟨h, rfl⟩))))))),
    fun i wp hw => ?_⟩
  refine ⟨fun h => checkWaypoint_sub w i wp hw _
      ((mem_checkWaypoint_iff i wp _).mpr (Or.inl ⟨h, rfl⟩)),
    fun h => checkWaypoint_sub w i wp hw _
      ((mem_checkWaypoint_iff i wp _).mpr (Or.inr (Or.inl ⟨h, rfl⟩))),
    fun h => checkWaypoint_sub w i wp hw _
      ((mem_checkWaypoint_iff i wp _).mpr (Or.inr (Or.inr (Or.inl ⟨h, rfl⟩)))),
    fun h => checkWaypoint_sub w i wp hw _
      ((mem_checkWaypoint_iff i wp _).mpr (Or.inr (Or.inr (Or.inr (Or.inl ⟨h, rfl⟩))))),
    fun h => checkWaypoint_sub w i wp hw _
      ((mem_checkWaypoint_iff i wp _).mpr
        (Or.inr (Or.inr (Or.inr (Or.inr (Or.inl ⟨h, rfl⟩)))))),
    fun h => checkWaypoint_sub w i wp hw _
      ((mem_checkWaypoint_iff i wp _).mpr
        (Or.inr (Or.inr (Or.inr (Or.inr (Or.inr (Or.inl ⟨h, rfl⟩))))))),
    fun h => checkWaypoint_sub w i wp hw _
      ((mem_checkWaypoint_iff i wp _).mpr
        (Or.inr (Or.inr (Or.inr (Or.inr (Or.inr (Or.inr ⟨h, rfl⟩)))))))⟩

/-- Witness for C2: a mission with an empty name, global height 3000, and
waypoint 0 at latitude 200 is reported on all three fields at once. -/
theorem validate_reports_every_violation_witness :
    nameViolation ∈ badMission.validate ∧
    globalHeightViolation ∈ badMission.validate ∧
    latitudeViolation 0 ∈ badMission.validate :=
  ⟨(validate_reports_every_violation badMission).1 (by decide),
   (validate_reports_every_violation badMission).2.2.2.2.1 (by decide),
   ((validate_reports_every_violation badMission).2.2.2.2.2.2.2 0 badWaypoint
      rfl).1 (by decide)⟩

/-- C3: a waypoint incurs no coordinate violation exactly when its
latitude lies in −90..90 and its longitude in −180..180 (latitude 0 and
longitude 0 included). -/
theorem validate_coordinate_ranges (w : Waylines) (i : Nat) (wp : WaylinesWaypoint)
    (h : w.waypoints[i]? = some wp) :
    (-90 ≤ wp.latitude ∧ wp.latitude ≤ 90 ∧
     -180 ≤ wp.longitude ∧ wp.longitude ≤ 180) ↔
      (∀ v ∈ w.validate, v.waypointIndex = some i →
        v.field ≠ "latitude" ∧ v.field ≠ "longitude") := by
  constructor
  · rintro ⟨h1, h2, h3, h4⟩ v hv hidx
    have hcw := mem_validate_at_index w v i wp h hv hidx
    rw [mem_checkWaypoint_iff] at hcw
    rcases hcw with ⟨hc, hv'⟩ | ⟨hc, hv'⟩ | ⟨hc, hv'⟩ | ⟨hc, hv'⟩ | ⟨hc, hv'⟩ |
      ⟨hc, hv'⟩ | ⟨hc, hv'⟩
    · rcases hc with hc | hc <;> linarith
    · rcases hc with hc | hc <;> linarith
    · subst hv'; exact ⟨by simp, by simp⟩
    · subst hv'; exact ⟨by simp, by simp⟩
    · subst hv'; exact ⟨by simp, by simp⟩
    · subst hv'; exact ⟨by simp, by simp⟩
    · subst hv'; exact ⟨by simp, by simp⟩
  · intro hall
    refine ⟨?_, ?_, ?_, ?_⟩
    · by_contra hc
      push_neg at hc
      have hmem : latitudeViolation i ∈ w.validate :=
        checkWaypoint_sub w i wp h _
          ((mem_checkWaypoint_iff i wp _).mpr (Or.inl ⟨Or.inl hc, rfl⟩))
      exact (hall _ hmem rfl).1 rfl
    · by_contra hc
      push_neg at hc
      have hmem : latitudeViolation i ∈ w.validate :=
        checkWaypoint_sub w i wp h _
          ((mem_checkWaypoint_iff i wp _).mpr (Or.inl ⟨Or.inr hc, rfl⟩))
      exact (hall _ hmem rfl).1 rfl
    · by_contra hc
      push_neg at hc
      have hmem : longitudeViolation i ∈ w.validate :=
        checkWaypoint_sub w i wp h _
          ((mem_checkWaypoint_iff i wp _).mpr (Or.inr (Or.inl ⟨Or.inl hc, rfl⟩)))
      exact (hall _ hmem rfl).2 rfl
    · by_contra hc
      push_neg at hc
      have hmem : longitudeViolation i ∈ w.validate :=
        checkWaypoint_sub w i wp h _
          ((mem_checkWaypoint_iff i wp _).mpr (Or.inr (Or.inl ⟨Or.inr hc, rfl⟩)))
      exact (hall _ hmem rfl).2 rfl

/-- Witness for C3, at the first waypoint of the valid example mission. -/
theorem validate_coordinate_ranges_witness :
    (-90 ≤ exampleWaypoint0.latitude ∧ exampleWaypoint0.latitude ≤ 90 ∧
     -180 ≤ exampleWaypoint0.longitude ∧ exampleWaypoint0.longitude ≤ 180) ↔
      (∀ v ∈ exampleMission.validate, v.waypointIndex = some 0 →
        v.field ≠ "latitude" ∧ v.field ≠ "longitude") :=
  validate_coordinate_ranges exampleMission 0 exampleWaypoint0 rfl

/-- C4: zero (unset) global height and speed incur no violation on those
fields; non-zero values are violated exactly when outside 5–1500
resp. 1–15. -/
theorem validate_global_height_speed (w : Waylines) :
    (w.globalHeight = 0 → ∀ v ∈ w.validate, v.field ≠ "global_height")
    ∧ (w.globalSpeed = 0 → ∀ v ∈ w.validate, v.field ≠ "global_speed")
    ∧ (w.globalHeight ≠ 0 →
        (globalHeightViolation ∈ w.validate ↔
          (w.globalHeight < 5 ∨ 1500 < w.globalHeight)))
    ∧ (w.globalSpeed ≠ 0 →
        (globalSpeedViolation ∈ w.validate ↔
          (w.globalSpeed < 1 ∨ 15 < w.globalSpeed))) := by
  have hfield : ∀ v (j : Nat) (wq : WaylinesWaypoint), v ∈ checkWaypoint j wq →
      v.field ≠ "global_height" ∧ v.field ≠ "global_speed" := by
    intro v j wq hv
    rcases mem_checkWaypoint_cases j wq v hv with hv' | hv' | hv' | ⟨hv', _⟩ |
      ⟨hv', _⟩ | ⟨hv', _⟩ | ⟨hv', _⟩ <;> subst hv' <;> exact ⟨by simp, by simp⟩
  refine ⟨fun h0 v hv => ?_, fun h0 v hv => ?_, fun hne => ⟨fun hm => ?_, fun hr => ?_⟩,
    fun hne => ⟨fun hm => ?_, fun hr => ?_⟩⟩
  · rw [mem_validate_iff] at hv
    rcases hv with ⟨_, hv⟩ | ⟨_, hv⟩ | ⟨_, hv⟩ | ⟨_, hv⟩ | ⟨⟨hne, _⟩, hv⟩ |
      ⟨_, hv⟩ | ⟨_, hv⟩ | ⟨j, wq, _, hv⟩
    · subst hv; decide
    · subst hv; decide
    · subst hv; decide
    · subst hv; decide
    · exact absurd h0 hne
    · subst hv; decide
    · subst hv; decide
    · exact (hfield v j wq hv).1
  · rw [mem_validate_iff] at hv
    rcases hv with ⟨_, hv⟩ | ⟨_, hv⟩ | ⟨_, hv⟩ | ⟨_, hv⟩ | ⟨_, hv⟩ |
      ⟨⟨hne, _⟩, hv⟩ | ⟨_, hv⟩ | ⟨j, wq, _, hv⟩
    · subst hv; decide
    · subst hv; decide
    · subst hv; decide
    · subst hv; decide
    · subst hv; decide
    · exact absurd h0 hne
    · subst hv; decide
    · exact (hfield v j wq hv).2
  · rw [mem_validate_iff] at hm
    rcases hm with ⟨_, hv⟩ | ⟨_, hv⟩ | ⟨_, hv⟩ | ⟨_, hv⟩ | ⟨⟨_, hr⟩, _⟩ |
      ⟨_, hv⟩ | ⟨_, hv⟩ | ⟨j, wq, _, hv⟩
    · exact absurd hv (by decide)
    · exact absurd hv (by decide)
    · exact absurd hv (by decide)
    · exact absurd hv (by decide)
    · exact hr
    · exact absurd hv (by decide)
    · exact absurd hv (by decide)
    · exact absurd ((hfield _ j wq hv).1) (by simp [globalHeightViolation])
  · exact (mem_validate_iff w _).mpr
      (Or.inr (Or.inr (Or.inr (Or.inr (Or.inl ⟨⟨hne, hr⟩, rfl⟩)))))
  · rw [mem_validate_iff] at hm
    rcases hm with ⟨_, hv⟩ | ⟨_, hv⟩ | ⟨_, hv⟩ | ⟨_, hv⟩ | ⟨_, hv⟩ |
      ⟨⟨_, hr⟩, _⟩ | ⟨_, hv⟩ | ⟨j, wq, _, hv⟩
    · exact absurd hv (by decide)
    · exact absurd hv (by decide)
    · exact absurd hv (by decide)
    · exact absurd hv (by decide)
    · exact absurd hv (by decide)
    · exact hr
    · exact absurd hv (by decide)
    · exact absurd ((hfield _ j wq hv).2) (by simp [globalSpeedViolation])
  · exact (mem_validate_iff w _).mpr
      (Or.inr (Or.inr (Or.inr (Or.inr (Or.inr (Or.inl ⟨⟨hne, hr⟩, rfl⟩))))))

/-- Witness for C4: the valid example mission leaves global height unset
(zero) with no violation; the bad mission's global height 3000 is
violated exactly because it exceeds 1500. -/
theorem validate_global_height_speed_witness :
    (∀ v ∈ exampleMission.validate, v.field ≠ "global_height") ∧
    (globalHeightViolation ∈ badMission.validate ↔
      (badMission.globalHeight < 5 ∨ 1500 < badMission.globalHeight)) :=
  ⟨(validate_global_height_speed exampleMission).1 rfl,
   (validate_global_height_speed badMission).2.2.1 (by decide)⟩

/-- C5: a waypoint that omits its optional overrides (speed zero, empty
trigger type, trigger parameter zero, empty turn mode) incurs no
violation on those fields. -/
theorem validate_optional_fields_skipped (w : Waylines) (i : Nat)
    (wp : WaylinesWaypoint) (h : w.waypoints[i]? = some wp)
    (hs : wp.speed = 0) (ht : wp.triggerType = "") (hp : wp.triggerParam = 0)
    (hm : wp.waypointTurnMode = "") :
    ∀ v ∈ w.validate, v.waypointIndex = some i →
      v.field ≠ "speed" ∧ v.field ≠ "trigger_type" ∧
      v.field ≠ "trigger_param" ∧ v.field ≠ "waypoint_turn_mode" := by
  intro v hv hidx
  have hcw := mem_validate_at_index w v i wp h hv hidx
  rcases mem_checkWaypoint_cases i wp v hcw with hv' | hv' | hv' | ⟨hv', hc⟩ |
    ⟨hv', hc⟩ | ⟨hv', hc⟩ | ⟨hv', hc⟩
  · subst hv'; exact ⟨by simp, by simp, by simp, by simp⟩
  · subst hv'; exact ⟨by simp, by simp, by simp, by simp⟩
  · subst hv'; exact ⟨by simp, by simp, by simp, by simp⟩
  · exact absurd hs hc
  · exact absurd ht hc
  · rw [hp] at hc; exact absurd hc (by norm_num)
  · exact absurd hm hc

/-- Witness for C5: waypoint 0 of the bad mission omits all optional
overrides, and its (latitude) violation touches none of those fields. -/
theorem validate_optional_fields_skipped_witness :
    (latitudeViolation 0).field ≠ "speed" ∧
    (latitudeViolation 0).field ≠ "trigger_type" ∧
    (latitudeViolation 0).field ≠ "trigger_param" ∧
    (latitudeViolation 0).field ≠ "waypoint_turn_mode" :=
  validate_optional_fields_skipped badMission 0 badWaypoint rfl rfl rfl rfl rfl
    (latitudeViolation 0) (by decide) rfl

/-- C6: an empty waypoint list or an empty/over-100-character name is
reported on the offending field; a mission with at least one waypoint and
a name of length 1–100 incurs no violation on those two fields. -/
theorem validate_name_and_waypoints (w : Waylines) :
    (w.waypoints = [] → waypointsViolation ∈ w.validate)
    ∧ ((w.name.length = 0 ∨ 100 < w.name.length) → nameViolation ∈ w.validate)
    ∧ (w.waypoints ≠ [] → 1 ≤ w.name.length → w.name.length ≤ 100 →
        nameViolation ∉ w.validate ∧ waypointsViolation ∉ w.validate) := by
  refine ⟨fun h => (mem_validate_iff w _).mpr
      (Or.inr (Or.inr (Or.inr (Or.inr (Or.inr (Or.inr (Or.inl ⟨h, rfl⟩))))))),
    fun h => (mem_validate_iff w _).mpr (Or.inl ⟨by omega, rfl⟩),
    fun hw h1 h2 => ⟨fun hm => ?_, fun hm => ?_⟩⟩
  · rw [mem_validate_iff] at hm
    rcases hm with ⟨hc, _⟩ | ⟨_, he⟩ | ⟨_, he⟩ | ⟨_, he⟩ | ⟨_, he⟩ | ⟨_, he⟩ |
      ⟨_, he⟩ | ⟨j, wq, _, hv⟩
    · exact hc ⟨h1, h2⟩
    · exact absurd he (by decide)
    · exact absurd he (by decide)
    · exact absurd he (by decide)
    · exact absurd he (by decide)
    · exact absurd he (by decide)
    · exact absurd he (by decide)
    · have := checkWaypoint_index j wq _ hv
      simp [nameViolation] at this
  · rw [mem_validate_iff] at hm
    rcases hm with ⟨_, he⟩ | ⟨_, he⟩ | ⟨_, he⟩ | ⟨_, he⟩ | ⟨_, he⟩ | ⟨_, he⟩ |
      ⟨hc, _⟩ | ⟨j, wq, _, hv⟩
    · exact absurd he (by decide)
    · exact absurd he (by decide)
    · exact absurd he (by decide)
    · exact absurd he (by decide)
    · exact absurd he (by decide)
    · exact absurd he (by decide)
    · exact hw hc
    · have := checkWaypoint_index j wq _ hv
      simp [waypointsViolation] at this

/-- Witness for C6: the empty mission is reported on both fields; the
valid example mission on neither. -/
theorem validate_name_and_waypoints_witness :
    waypointsViolation ∈ emptyMission.validate ∧
    nameViolation ∈ emptyMission.validate ∧
    nameViolation ∉ exampleMission.validate ∧
    waypointsViolation ∉ exampleMission.validate :=
  ⟨(validate_name_and_waypoints emptyMission).1 rfl,
   (validate_name_and_waypoints emptyMission).2.1 (Or.inl rfl),
   ((validate_name_and_waypoints exampleMission).2.2 (by decide) (by decide)
      (by decide)).1,
   ((validate_name_and_waypoints exampleMission).2.2 (by decide) (by decide)
      (by decide)).2⟩

/-- C8: the modelled `Validate` call leaves the receiver unchanged: the
struct component threaded through every check equals the input on every
field, whether or not violations are produced. -/
theorem validateStruct_no_mutation (w : Waylines) : (w.validateStruct).1 = w := rfl

/-- C9: `ApplyDefaults` sets `HeightType` to `relativeToStartPoint` exactly
when it was the empty string, leaves it unchanged otherwise, and changes no
other field of the `Waylines` value. -/
theorem applyDefaults_heightType_only (w : Waylines) :
    ((w.applyDefaults).heightType =
      (if w.heightType = "" then HeightModeRelativeToStartPoint else w.heightType))
    ∧ (w.applyDefaults).name = w.name
    ∧ (w.applyDefaults).description = w.description
    ∧ (w.applyDefaults).droneModel = w.droneModel
    ∧ (w.applyDefaults).payloadModel = w.payloadModel
    ∧ (w.applyDefaults).payloadPositionIndex = w.payloadPositionIndex
    ∧ (w.applyDefaults).templateType = w.templateType
    ∧ (w.applyDefaults).globalHeight = w.globalHeight
    ∧ (w.applyDefaults).globalSpeed = w.globalSpeed
    ∧ (w.applyDefaults).photoSettings = w.photoSettings
    ∧ (w.applyDefaults).useLowLightSmart = w.useLowLightSmart
    ∧ (w.applyDefaults).finishAction = w.finishAction
    ∧ (w.applyDefaults).climbMode = w.climbMode
    ∧ (w.applyDefaults).safeHeight = w.safeHeight
    ∧ (w.applyDefaults).globalRTHHeight = w.globalRTHHeight
    ∧ (w.applyDefaults).aircraftYawMode = w.aircraftYawMode
    ∧ (w.applyDefaults).gimbalPitchMode = w.gimbalPitchMode
    ∧ (w.applyDefaults).globalTransitionalSpeed = w.globalTransitionalSpeed
    ∧ (w.applyDefaults).takeOffRefPointLatitude = w.takeOffRefPointLatitude
    ∧ (w.applyDefaults).takeOffRefPointLongitude = w.takeOffRefPointLongitude
    ∧ (w.applyDefaults).takeOffRefPointHeight = w.takeOffRefPointHeight
    ∧ (w.applyDefaults).takeOffRefPointAGLHeight = w.takeOffRefPointAGLHeight
    ∧ (w.applyDefaults).globalWaypointTurnMode = w.globalWaypointTurnMode
    ∧ (w.applyDefaults).globalUseStraightLine = w.globalUseStraightLine
    ∧ (w.applyDefaults).globalTurnDampingDist = w.globalTurnDampingDist
    ∧ (w.applyDefaults).waypoints = w.waypoints := by
  unfold Waylines.applyDefaults
  by_cases h : w.heightType = "" <;> simp [h]

/-- C10: `ApplyDefaults` is idempotent. -/
theorem applyDefaults_idempotent (w : Waylines) :
    (w.applyDefaults).applyDefaults = w.applyDefaults := by
  unfold Waylines.applyDefaults
  by_cases h : w.heightType = "" <;>
    simp [h, HeightModeRelativeToStartPoint]

/-- C7: a `takePhoto` request whose parameter bag omits
`payloadPositionIndex` encodes successfully, and the concrete action's
payload position index defaults to 0. -/
theorem takePhoto_defaults_payload_index (id : Nat) (r : ActionRequest)
    (ht : r.type = "takePhoto")
    (hp : List.lookup payloadIndexKey r.params = none) :
    encodeAction id r =
      Except.ok ⟨id, "takePhoto", [(payloadIndexKey, ParamValue.int 0)]⟩ := by
  simp [encodeAction, ht, hp]

/-- Witness for C7: a bare `takePhoto` request encodes to index 0. -/
theorem takePhoto_defaults_payload_index_witness :
    encodeAction 7 photoNoIndexRequest =
      Except.ok ⟨7, "takePhoto", [(payloadIndexKey, ParamValue.int 0)]⟩ :=
  takePhoto_defaults_payload_index 7 photoNoIndexRequest rfl rfl

/-- C1: round trip — for every `Waylines` whose build succeeds, packaging
the built mission tree and parsing the archive back returns exactly the
built tree, hence a tree with identical placemark count, order,
coordinates, heights, action identifiers, and trigger groupings. -/
theorem build_package_parse_roundtrip (w : Waylines) (t : MissionTree)
    (h : build w = Except.ok t) :
    parseArchive (packageMission t) = Except.ok t := by
  have hne : waylinesDocPath ≠ templateDocPath := by decide
  simp [parseArchive, packageMission, findEntry, hne]

/-- Witness for C1: the example mission builds to `exampleTree`, and the
packaged archive parses back to it. -/
theorem build_package_parse_roundtrip_witness :
    build exampleMission = Except.ok exampleTree ∧
    parseArchive (packageMission exampleTree) = Except.ok exampleTree :=
  ⟨rfl, build_package_parse_roundtrip exampleMission exampleTree rfl⟩

end WPML
